import Mathlib

/-!
Verification of the scorm-kit repository against its specification.

The client-side viewer (`public/js/player-viewer.js`) is embedded as a pure
state machine: the synchronous prefix of `renderPage` is a function on a
`ViewerState`, and the asynchronous continuations (page-geometry success /
failure, raster success / failure) are separate transition functions.
JavaScript numbers are embedded as exact rationals, with a small `JsNum`
type (finite / infinities / NaN) where the code can produce non-finite
values.  The server-side templaters of `server.js` (`generateConfigJS`,
`generateManifest`) are embedded as string functions, and the `/package`
handler as a function of its fetch outcome.
-/

/-! ## JavaScript numbers for the viewport fit (player-viewer.js lines 120-130) -/

/-- A JavaScript number, idealized: a finite value is an exact rational. -/
inductive JsNum where
  | num : ℚ → JsNum
  | posInf : JsNum
  | negInf : JsNum
  | nan : JsNum
deriving DecidableEq, Repr

/-- JS division `a / b` of two finite numbers: division by zero yields a
signed infinity (or NaN for `0 / 0`). -/
def jsDivQ (a b : ℚ) : JsNum :=
  if b = 0 then
    (if a = 0 then JsNum.nan else if a > 0 then JsNum.posInf else JsNum.negInf)
  else JsNum.num (a / b)

/-- JS `Math.min`: NaN-propagating, with the usual ordering on infinities. -/
def jsMin : JsNum → JsNum → JsNum
  | JsNum.nan, _ => JsNum.nan
  | _, JsNum.nan => JsNum.nan
  | JsNum.negInf, _ => JsNum.negInf
  | _, JsNum.negInf => JsNum.negInf
  | JsNum.posInf, b => b
  | a, JsNum.posInf => a
  | JsNum.num a, JsNum.num b => JsNum.num (min a b)

/-- JS `isFinite`. -/
def jsIsFinite : JsNum → Bool
  | JsNum.num _ => true
  | _ => false

/-- JS comparison `x <= 0` (false on NaN). -/
def jsLeZero : JsNum → Bool
  | JsNum.num a => decide (a ≤ 0)
  | JsNum.negInf => true
  | JsNum.posInf => false
  | JsNum.nan => false

/-- `Math.min(wrapperW / pdfW, wrapperH / pdfH)` — the raw scale of
player-viewer.js line 127, before the safety fallback. -/
def fitScaleRaw (vw vh pdfW pdfH : ℚ) : JsNum :=
  jsMin (jsDivQ vw pdfW) (jsDivQ vh pdfH)

/-- The scale actually used by `renderPage` (player-viewer.js lines 127-128):
`let scale = Math.min(vw / pdfW, vh / pdfH); if (!isFinite(scale) || scale <= 0) scale = 1;`. -/
def fitScale (vw vh pdfW pdfH : ℚ) : JsNum :=
  if jsIsFinite (fitScaleRaw vw vh pdfW pdfH) = false
      ∨ jsLeZero (fitScaleRaw vw vh pdfW pdfH) = true then
    JsNum.num 1
  else fitScaleRaw vw vh pdfW pdfH

/-! ## Progress codec (player-viewer.js lines 149 and 216-223) -/

/-- Line 149: `visitedPages.map(v => v ? "1" : "0").join("")`. -/
def encode (b : List Bool) : String :=
  String.join (b.map (fun v => if v then "1" else "0"))

/-- Lines 216-223 of `startViewerWithPdf`: the bitmap starts as
`Array(totalPages).fill(false)`; it is replaced by
`suspend.split("").map(c => c === "1")` only when `suspend` is truthy
(non-empty) and `suspend.length === totalPages`. -/
def decode (s : String) (pageCount : Nat) : List Bool :=
  if s ≠ "" ∧ s.length = pageCount then s.data.map (fun c => c == '1')
  else List.replicate pageCount false

/-! ## Viewer state machine (player-viewer.js lines 19-26, 112-164, 250-261) -/

/-- The module-level state of player-viewer.js that the claims concern:
`pdfDoc` (carrying `numPages` when loaded), `currentPage`, `totalPages`,
`isRendering`, `currPage` (the currently-rendered-page index, sentinel -1),
and `visitedPages`. -/
structure ViewerState where
  pdfDoc : Option Nat
  currentPage : Nat
  totalPages : Nat
  isRendering : Bool
  currPage : Int
  visitedPages : List Bool
deriving DecidableEq, Repr

/-- JS array assignment `arr[i] = true`: in-bounds it updates, out of bounds
it extends the array with falsy holes. -/
def jsSetTrue (l : List Bool) (i : Nat) : List Bool :=
  if i < l.length then l.set i true
  else l ++ List.replicate (i - l.length) false ++ [true]

/-- The synchronous prefix of `renderPage` (lines 112-116):
`if (!pdfDoc || isRendering) return; if (currPage === pageNumber) return;
currPage = pageNumber; isRendering = true;` followed by the start of the
asynchronous work.  The boolean result records whether that underlying
render work (the `pdfDoc.getPage` chain) was started. -/
def renderPage (s : ViewerState) (pageNumber : Nat) : ViewerState × Bool :=
  if s.pdfDoc.isNone || s.isRendering then (s, false)
  else if s.currPage = (pageNumber : Int) then (s, false)
  else ({ s with currPage := (pageNumber : Int), isRendering := true }, true)

/-- Successful completion of the raster (lines 143-153): clears
`isRendering`, marks the page visited, and emits the persisted pair
(`cmi.suspend_data` bitmap string, `lesson_location` page string). -/
def renderSuccess (s : ViewerState) (pageNumber : Nat) : ViewerState × (String × String) :=
  let visited := jsSetTrue s.visitedPages (pageNumber - 1)
  ({ s with isRendering := false, visitedPages := visited },
   (encode visited, toString pageNumber))

/-- The `.catch` of `pdfDoc.getPage` (lines 158-161): only clears `isRendering`. -/
def getPageFailure (s : ViewerState) : ViewerState :=
  { s with isRendering := false }

/-- The `.catch` of `page.render(...).promise` (lines 154-157): only clears
`isRendering`. -/
def renderFailure (s : ViewerState) : ViewerState :=
  { s with isRendering := false }

namespace playerViewer

/-- `window.playerViewer.next` (lines 254-257).  The optional result records
the page `renderPage` was invoked for, `none` when navigation was a no-op. -/
def next (s : ViewerState) : ViewerState × Option Nat :=
  if s.pdfDoc.isNone then (s, none)
  else if s.currentPage < s.totalPages then
    let s1 := { s with currentPage := s.currentPage + 1 }
    ((renderPage s1 s1.currentPage).1, some s1.currentPage)
  else (s, none)

/-- `window.playerViewer.prev` (lines 258-261). -/
def prev (s : ViewerState) : ViewerState × Option Nat :=
  if s.pdfDoc.isNone then (s, none)
  else if 1 < s.currentPage then
    let s1 := { s with currentPage := s.currentPage - 1 }
    ((renderPage s1 s1.currentPage).1, some s1.currentPage)
  else (s, none)

end playerViewer

/-- `startViewerWithPdf` after a successful `getDocument` (lines 193-233):
full state reset, fresh all-false bitmap overwritten by the decoded
suspend data (leniency rule of `decode`), `lesson_location` restored when
parseable and in `[1, numPages]` (`none` models NaN), then
`renderPage(currentPage)`. -/
def startViewerWithPdf (numPages : Nat) (suspend : String) (lastLoc : Option Int) :
    ViewerState × Bool :=
  let current : Nat :=
    match lastLoc with
    | some l => if 1 ≤ l ∧ l ≤ (numPages : Int) then l.toNat else 1
    | none => 1
  renderPage
    { pdfDoc := some numPages, currentPage := current, totalPages := numPages,
      isRendering := false, currPage := -1, visitedPages := decode suspend numPages }
    current

/-! ## Substring search used to state claims about generated text -/

/-- `listHasPre pat l`: `pat` is a leading segment of `l`. -/
def listHasPre : List Char → List Char → Bool
  | [], _ => true
  | _ :: _, [] => false
  | a :: as, b :: bs => a == b && listHasPre as bs

/-- `strContainsAux pat l`: `pat` occurs contiguously somewhere in `l`. -/
def strContainsAux (pat : List Char) : List Char → Bool
  | [] => listHasPre pat []
  | c :: cs => listHasPre pat (c :: cs) || strContainsAux pat cs

/-- `strContains s pat`: the string `pat` occurs as a contiguous substring
of `s`. -/
def strContains (s pat : String) : Bool :=
  strContainsAux pat.data s.data

/-! ## Config templater (server.js lines 248-286) -/

/-- The caller-controllable part of the RuntimeConfig read by
`generateConfigJS`; `none` models an absent (JS `undefined`) field. -/
structure RuntimeConfig where
  title : Option String
  sidebarDefaultOpen : Option Bool
  slideSequenceLocked : Option Bool
deriving DecidableEq, Repr

/-- JS `Boolean(x)` applied to a possibly-absent boolean field:
`Boolean(undefined) = false`. -/
def jsBoolean (b : Option Bool) : Bool :=
  b.getD false

/-- JS interpolation of a boolean into a template literal. -/
def boolStr (b : Bool) : String :=
  if b then "true" else "false"

/-- `(cfg.title || "").replace(/"/g, '\x5c"')` of server.js line 252:
every double quote is replaced by a backslash-quote pair. -/
def escapeQuotes (s : String) : String :=
  String.join (s.data.map (fun c => if c = '"' then "\\\"" else String.mk [c]))

/-- Text of the Config.js template (server.js lines 249-252) up to the
opening quote of the title value. -/
def configPart1 : String :=
  "// Config.js\nvar Config = \x7b\n    // Judul dokumen yang tampil di topbar\n    title: \""

/-- Template text between the title value and the filename value
(server.js lines 252-261). -/
def configPart2 : String :=
  "\",\n\n    // MODE: masukkan link PPTX publik (A).\n    // Contoh: \"https://example.com/training.pptx\"\n    // Jika nanti diintegrasikan ke LMS, LMS tinggal mengganti / generate URL ini.\n    //pptUrl: \"https://netpolitanteam.com/demo/ppt/test.pptx\",\n    pptUrl: null,\n\n    // (opsional) fallback ke file PDF statis di folder \x60data/\x60\n    filename: \""

/-- Template text between the filename value and the serialized
`sidebarDefaultOpen` boolean (server.js lines 261-278). -/
def configPart3 : String :=
  "\",\n\n    // UI config (tidak perlu ubah)\n    fontFamily: \"system-ui, -apple-system, BlinkMacSystemFont, \x27Segoe UI\x27, sans-serif\",\n    fontSize: \"14px\",\n    fontColor: \"#222222\",\n    bodyBgColor: \"#ffffff\",\n    headerBgColor: \"#555555\",\n    headerTextColor: \"#ffffff\",\n    footerBgColor: \"#555555\",\n    footerTextColor: \"#ffffff\",\n    buttonBgColor: \"#777777\",\n    buttonPrimaryBgColor: \"#007bff\",\n    buttonTextColor: \"#ffffff\",\n    progressBarColor: \"#00ff00\",\n\n    // sidebar default open? (true/false)\n    sidebarDefaultOpen: "

/-- Template text between the two serialized booleans (server.js lines
278-281). -/
def configPart4 : String :=
  ",\n\n    // Lock sequence slides? (true = must go sequentially)\n    slideSequenceLocked: "

/-- Template text after the serialized `slideSequenceLocked` boolean
(server.js lines 281-285). -/
def configPart5 : String :=
  ",\n\n    // nav button position: \x27left\x27 | \x27center\x27 | \x27right\x27\n    navPosition: \"right\"\n\x7d;"

/-- `generateConfigJS(cfg, pdfFilename)` (server.js lines 248-286): the
template literal with `(cfg.title || "").replace(/"/g, ...)`,
`${pdfFilename}`, `${Boolean(cfg.sidebarDefaultOpen)}` and
`${Boolean(cfg.slideSequenceLocked)}` substituted in. -/
def generateConfigJS (cfg : RuntimeConfig) (pdfFilename : String) : String :=
  configPart1 ++ escapeQuotes (cfg.title.getD "") ++ configPart2 ++ pdfFilename
    ++ configPart3 ++ boolStr (jsBoolean cfg.sidebarDefaultOpen)
    ++ configPart4 ++ boolStr (jsBoolean cfg.slideSequenceLocked) ++ configPart5

/-! ## Manifest builder (server.js lines 219-246) -/

/-- `generateManifest(pkgId, title, launchFile, resourceFiles)`:
`filesXml` is the resource list joined by a newline plus six spaces, and
every interpolation is verbatim — no XML escaping anywhere. -/
def generateManifest (pkgId title launchFile : String)
    (resourceFiles : List String) : String :=
  let filesXml := String.intercalate "\n      "
    (resourceFiles.map (fun f => "<file href=\"" ++ f ++ "\" />"))
  "<?xml version=\"1.0\" encoding=\"UTF-8\"?>\n<manifest identifier=\"" ++ pkgId
    ++ "\" version=\"1\"\n  xmlns=\"http://www.imsproject.org/xsd/imscp_rootv1p1p2\"\n  xmlns:adlcp=\"http://www.adlnet.org/xsd/adlcp_rootv1p2\"\n  xmlns:xsi=\"http://www.w3.org/2001/XMLSchema-instance\"\n  xsi:schemaLocation=\"http://www.imsproject.org/xsd/imscp_rootv1p1p2\n  imscp_rootv1p1p2.xsd\">\n  <metadata>\n    <schema>ADL SCORM</schema>\n    <schemaversion>1.2</schemaversion>\n  </metadata>\n  <organizations default=\"ORG_1\">\n    <organization identifier=\"ORG_1\">\n      <title>"
    ++ title
    ++ "</title>\n      <item identifier=\"ITEM_1\" identifierref=\"RES_1\">\n        <title>"
    ++ title
    ++ "</title>\n      </item>\n    </organization>\n  </organizations>\n  <resources>\n    <resource identifier=\"RES_1\" type=\"webcontent\" adlcp:scormtype=\"sco\" href=\""
    ++ launchFile
    ++ "\">\n      " ++ filesXml ++ "\n    </resource>\n  </resources>\n</manifest>"

/-! ## The POST /package handler (server.js lines 290-376) -/

/-- Which optional viewer assets exist in the staged working directory
(the four `fsSync.existsSync` checks of server.js lines 348-351). -/
structure AssetEnv where
  hasStylesCss : Bool
  hasPdfMinJs : Bool
  hasPdfWorkerMinJs : Bool
  hasPlayerViewerJs : Bool
deriving DecidableEq, Repr

/-- Outcome of `await fetch(pdfUrl)` (server.js line 320): success
(`resp.ok`), a non-success HTTP status, or a rejected promise (transport
error carrying its message). -/
inductive FetchOutcome where
  | success : FetchOutcome
  | httpError : Nat → FetchOutcome
  | transportError : String → FetchOutcome
deriving DecidableEq, Repr

/-- The response of the /package handler: a 400, the 500 sent from the
catch block, or the zip archive streamed to the caller (carrying the
generated manifest and Config.js texts). -/
inductive PackageResult where
  | badRequest : String → PackageResult
  | serverError : String → PackageResult
  | archiveStreamed : String → String → PackageResult
deriving DecidableEq, Repr

/-- True exactly on the catch-block error response. -/
def PackageResult.isServerError : PackageResult → Bool
  | PackageResult.serverError _ => true
  | _ => false

/-- True exactly when a zip archive was streamed to the caller. -/
def PackageResult.isArchiveStreamed : PackageResult → Bool
  | PackageResult.archiveStreamed _ _ => true
  | _ => false

/-- JS `a || b` on strings: empty (falsy) falls through to the default. -/
def jsOrElse (s d : String) : String :=
  if s = "" then d else s

/-- The /package handler (server.js lines 290-376) as a function of its
request and the outcome of the upstream PDF fetch.  `!pdfUrl` rejects with
400; a throw from the fetch step (non-ok status, line 321, or transport
error) lands in the catch block as a 500 before any archive is created;
otherwise Config.js and the manifest are generated and the zip is
streamed. -/
def packagePost (pkgId : String) (pdfUrl : Option String)
    (config : Option RuntimeConfig) (env : AssetEnv)
    (fetchOutcome : FetchOutcome) : PackageResult :=
  if pdfUrl.getD "" = "" then PackageResult.badRequest "Missing pdfUrl"
  else
    match fetchOutcome with
    | FetchOutcome.httpError status =>
        PackageResult.serverError
          ("Package generation error: Failed fetching PDF: " ++ toString status)
    | FetchOutcome.transportError msg =>
        PackageResult.serverError ("Package generation error: " ++ msg)
    | FetchOutcome.success =>
        let pdfFilename := "content.pdf"
        let configJS :=
          generateConfigJS (config.getD (RuntimeConfig.mk none none none)) pdfFilename
        let resourceFiles :=
          ["player.html", "index_lms.html", "Config.js", "data/" ++ pdfFilename]
            ++ (if env.hasStylesCss then ["css/styles.css"] else [])
            ++ (if env.hasPdfMinJs then ["js/pdf.min.js"] else [])
            ++ (if env.hasPdfWorkerMinJs then ["js/pdf.worker.min.js"] else [])
            ++ (if env.hasPlayerViewerJs then ["js/player-viewer.js"] else [])
        let manifestXml :=
          generateManifest pkgId
            (jsOrElse ((config.bind RuntimeConfig.title).getD "") "SCORM Package")
            "index_lms.html" resourceFiles
        PackageResult.archiveStreamed manifestXml configJS

/-! ## Helper lemmas -/

theorem str_data_append (a b : String) : (a ++ b).data = a.data ++ b.data := rfl

theorem str_append_assoc (a b c : String) : a ++ b ++ c = a ++ (b ++ c) :=
  congrArg String.mk (List.append_assoc a.data b.data c.data)

theorem listHasPre_self_append (pat rest : List Char) :
    listHasPre pat (pat ++ rest) = true := by
  induction pat with
  | nil => rfl
  | cons a as ih => simp [listHasPre, ih]

theorem strContainsAux_here (pat rest : List Char) :
    strContainsAux pat (pat ++ rest) = true := by
  cases h : pat ++ rest with
  | nil =>
      have hp : pat = [] := (List.append_eq_nil.mp h).1
      subst hp
      rfl
  | cons c cs =>
      simp only [strContainsAux]
      rw [← h, listHasPre_self_append]
      simp

theorem strContainsAux_mono_left (pat pre l : List Char)
    (h : strContainsAux pat l = true) :
    strContainsAux pat (pre ++ l) = true := by
  induction pre with
  | nil => simpa using h
  | cons c cs ih => simp [strContainsAux, ih]

theorem strContains_append_left (a s pat : String) (h : strContains s pat = true) :
    strContains (a ++ s) pat = true := by
  unfold strContains at h ⊢
  rw [str_data_append]
  exact strContainsAux_mono_left _ _ _ h

theorem str_join_foldl_data (l : List String) (acc : String) :
    (l.foldl (fun r s => r ++ s) acc).data = acc.data ++ (l.map String.data).flatten := by
  induction l generalizing acc with
  | nil => simp
  | cons s rest ih => simp [List.foldl_cons, ih (acc ++ s), str_data_append, List.append_assoc]

theorem join_map_singleton (g : Bool → Char) (b : List Bool) :
    (b.map (fun v => [g v])).flatten = b.map g := by
  induction b with
  | nil => rfl
  | cons v vs ih => simp [ih]

theorem encode_data (b : List Bool) :
    (encode b).data = b.map (fun v => if v then '1' else '0') := by
  have h1 : (encode b).data
      = ((b.map (fun v => if v then "1" else "0")).map String.data).flatten := by
    unfold encode String.join
    simpa using str_join_foldl_data (b.map (fun v => if v then "1" else "0")) ""
  rw [h1, List.map_map]
  have h2 : (String.data ∘ fun v : Bool => if v then "1" else "0")
      = fun v : Bool => [if v then '1' else '0'] := by
    funext v
    cases v <;> rfl
  rw [h2, join_map_singleton]

/-! ## Claim theorems -/

/-- Claim C3: decoding an encoded visited-page bitmap with the matching page
count is the identity: `decode (encode b) b.length = b` for every bitmap
`b`, where `encode` maps each boolean to a `'1'`/`'0'` character in page
order and `decode` maps each character `c` to `c == '1'`. -/
theorem claim_c3_roundtrip (b : List Bool) : decode (encode b) b.length = b := by
  cases b with
  | nil => rfl
  | cons v vs =>
      have hne : encode (v :: vs) ≠ "" := by
        intro h
        have hd : (encode (v :: vs)).data = [] := by rw [h]
        rw [encode_data] at hd
        simp at hd
      have hlen : (encode (v :: vs)).length = (v :: vs).length := by
        show (encode (v :: vs)).data.length = _
        rw [encode_data, List.length_map]
      unfold decode
      rw [if_pos ⟨hne, hlen⟩, encode_data, List.map_map]
      have hid : ((fun c => c == '1') ∘ fun v : Bool => if v then '1' else '0') = id := by
        funext x
        cases x <;> rfl
      simp [hid]

/-- Claim C4: for every persisted string `s` and page count `n` with
`s.length ≠ n` (the empty string included), decoding falls back to the
all-false bitmap of length `n` and never errors. -/
theorem claim_c4_leniency (s : String) (n : Nat) (h : s.length ≠ n) :
    decode s n = List.replicate n false := by
  unfold decode
  rw [if_neg]
  intro hc
  exact h hc.2

/-- Witness for claim C4 at the concrete input `s = "101"`, `n = 5`. -/
theorem claim_c4_leniency_witness :
    ("101" : String).length ≠ 5 ∧ decode "101" 5 = List.replicate 5 false :=
  ⟨by decide, claim_c4_leniency "101" 5 (by decide)⟩

/-- Claim C6: for positive page dimensions and positive viewport dimensions
the render scale equals `min (vw / pdfW) (vh / pdfH)`, and whenever the raw
quotient is non-finite or non-positive the scale used is exactly 1. -/
theorem claim_c6_viewport_fit :
    (∀ vw vh pdfW pdfH : ℚ, 0 < vw → 0 < vh → 0 < pdfW → 0 < pdfH →
      fitScale vw vh pdfW pdfH = JsNum.num (min (vw / pdfW) (vh / pdfH))) ∧
    (∀ vw vh pdfW pdfH : ℚ,
      jsIsFinite (fitScaleRaw vw vh pdfW pdfH) = false
        ∨ jsLeZero (fitScaleRaw vw vh pdfW pdfH) = true →
      fitScale vw vh pdfW pdfH = JsNum.num 1) := by
  constructor
  · intro vw vh pdfW pdfH hvw hvh hpw hph
    have hpw0 : pdfW ≠ 0 := ne_of_gt hpw
    have hph0 : pdfH ≠ 0 := ne_of_gt hph
    have hmin : 0 < min (vw / pdfW) (vh / pdfH) :=
      lt_min (div_pos hvw hpw) (div_pos hvh hph)
    have hraw : fitScaleRaw vw vh pdfW pdfH = JsNum.num (min (vw / pdfW) (vh / pdfH)) := by
      unfold fitScaleRaw jsDivQ
      rw [if_neg hpw0, if_neg hph0]
      rfl
    unfold fitScale
    rw [hraw, if_neg]
    rintro (hfin | hle)
    · exact absurd hfin (by simp [jsIsFinite])
    · rw [jsLeZero, decide_eq_true_eq] at hle
      exact absurd hle (not_le.mpr hmin)
  · intro vw vh pdfW pdfH h
    unfold fitScale
    rw [if_pos h]

/-- Witness for claim C6: a concrete positive input hits the `min` formula,
and a degenerate input (zero viewport width) yields scale 1. -/
theorem claim_c6_viewport_fit_witness :
    fitScale 4 3 2 1 = JsNum.num (min ((4 : ℚ) / 2) ((3 : ℚ) / 1))
      ∧ fitScale 0 1 2 5 = JsNum.num 1 :=
  ⟨claim_c6_viewport_fit.1 4 3 2 1 (by norm_num) (by norm_num) (by norm_num) (by norm_num),
   claim_c6_viewport_fit.2 0 1 2 5
     (Or.inr (by norm_num [fitScaleRaw, jsDivQ, jsMin, jsLeZero, min_def]))⟩

theorem renderPage_fst_currentPage (s : ViewerState) (p : Nat) :
    ((renderPage s p).1).currentPage = s.currentPage := by
  unfold renderPage
  split
  · rfl
  · split <;> rfl

/-- A concrete mid-document viewer state used by the witnesses: a 3-page
document loaded, current page 2, idle renderer, nothing rendered yet. -/
def sampleState : ViewerState :=
  ViewerState.mk (some 3) 2 3 false (-1) [false, false, false]

/-- A concrete viewer state with no document loaded. -/
def emptyState : ViewerState :=
  ViewerState.mk none 1 0 false (-1) []

/-- Claim C2: calling `renderPage p` twice in a row with no sentinel reset
performs the underlying render work exactly once — the first call starts
it, and the second call is a no-op both while the first is in flight
(`busy` guard) and after it completes (`currPage == p` guard). -/
theorem claim_c2_render_once (s : ViewerState) (p d : Nat)
    (hdoc : s.pdfDoc = some d) (hbusy : s.isRendering = false)
    (hcur : s.currPage ≠ (p : Int)) :
    (renderPage s p).2 = true ∧
    renderPage (renderPage s p).1 p = ((renderPage s p).1, false) ∧
    renderPage (renderSuccess (renderPage s p).1 p).1 p
      = ((renderSuccess (renderPage s p).1 p).1, false) := by
  have h1 : renderPage s p
      = ({ s with currPage := (p : Int), isRendering := true }, true) := by
    simp [renderPage, hdoc, hbusy, hcur]
  refine ⟨by rw [h1], ?_, ?_⟩
  · rw [h1]
    simp [renderPage, hdoc]
  · rw [h1]
    simp [renderPage, renderSuccess, hdoc]

/-- Witness for claim C2 at `sampleState` and page 2. -/
theorem claim_c2_render_once_witness :
    (renderPage sampleState 2).2 = true ∧
    renderPage (renderPage sampleState 2).1 2 = ((renderPage sampleState 2).1, false) ∧
    renderPage (renderSuccess (renderPage sampleState 2).1 2).1 2
      = ((renderSuccess (renderPage sampleState 2).1 2).1, false) :=
  claim_c2_render_once sampleState 2 3 rfl rfl (by decide)

/-- Claim C9: when a started render of page `p` fails (either catch
branch), `isRendering` is cleared but `currPage` is left at `p`, so an
immediate `renderPage p` with no sentinel reset is a no-op and the failed
page cannot be retried directly. -/
theorem claim_c9_failed_render_not_retryable (s : ViewerState) (p d : Nat)
    (hdoc : s.pdfDoc = some d) (hbusy : s.isRendering = false)
    (hcur : s.currPage ≠ (p : Int)) :
    ((getPageFailure (renderPage s p).1).isRendering = false ∧
      (getPageFailure (renderPage s p).1).currPage = (p : Int) ∧
      renderPage (getPageFailure (renderPage s p).1) p
        = (getPageFailure (renderPage s p).1, false)) ∧
    ((renderFailure (renderPage s p).1).isRendering = false ∧
      (renderFailure (renderPage s p).1).currPage = (p : Int) ∧
      renderPage (renderFailure (renderPage s p).1) p
        = (renderFailure (renderPage s p).1, false)) := by
  have h1 : renderPage s p
      = ({ s with currPage := (p : Int), isRendering := true }, true) := by
    simp [renderPage, hdoc, hbusy, hcur]
  rw [h1]
  refine ⟨⟨rfl, rfl, ?_⟩, ⟨rfl, rfl, ?_⟩⟩ <;>
    simp [renderPage, getPageFailure, renderFailure, hdoc]

/-- Witness for claim C9 at `sampleState` and page 2. -/
theorem claim_c9_failed_render_not_retryable_witness :
    ((getPageFailure (renderPage sampleState 2).1).isRendering = false ∧
      (getPageFailure (renderPage sampleState 2).1).currPage = (2 : Int) ∧
      renderPage (getPageFailure (renderPage sampleState 2).1) 2
        = (getPageFailure (renderPage sampleState 2).1, false)) ∧
    ((renderFailure (renderPage sampleState 2).1).isRendering = false ∧
      (renderFailure (renderPage sampleState 2).1).currPage = (2 : Int) ∧
      renderPage (renderFailure (renderPage sampleState 2).1) 2
        = (renderFailure (renderPage sampleState 2).1, false)) :=
  claim_c9_failed_render_not_retryable sampleState 2 3 rfl rfl (by decide)

/-- Claim C10: with no document loaded, `renderPage`, `next` and `prev`
all return immediately without modifying any session state. -/
theorem claim_c10_no_document_noop (s : ViewerState) (p : Nat)
    (h : s.pdfDoc = none) :
    renderPage s p = (s, false) ∧ playerViewer.next s = (s, none) ∧
      playerViewer.prev s = (s, none) := by
  refine ⟨?_, ?_, ?_⟩ <;> simp [renderPage, playerViewer.next, playerViewer.prev, h]

/-- Witness for claim C10 at `emptyState` and page 1. -/
theorem claim_c10_no_document_noop_witness :
    renderPage emptyState 1 = (emptyState, false) ∧
      playerViewer.next emptyState = (emptyState, none) ∧
      playerViewer.prev emptyState = (emptyState, none) :=
  claim_c10_no_document_noop emptyState 1 rfl

/-- Claim C5: with a document loaded and `currentPage` in range, `next`
and `prev` keep `currentPage` in `[1, totalPages]`; `prev` at page 1 and
`next` at the last page are no-ops, and otherwise they move by exactly one
page and invoke `renderPage` on the new current page. -/
theorem claim_c5_nav_clamps (s : ViewerState) (d : Nat)
    (hdoc : s.pdfDoc = some d) (hlo : 1 ≤ s.currentPage)
    (hhi : s.currentPage ≤ s.totalPages) :
    (1 ≤ (playerViewer.next s).1.currentPage
      ∧ (playerViewer.next s).1.currentPage ≤ s.totalPages) ∧
    (1 ≤ (playerViewer.prev s).1.currentPage
      ∧ (playerViewer.prev s).1.currentPage ≤ s.totalPages) ∧
    (s.currentPage = 1 → playerViewer.prev s = (s, none)) ∧
    (s.currentPage = s.totalPages → playerViewer.next s = (s, none)) ∧
    (s.currentPage < s.totalPages →
      (playerViewer.next s).1.currentPage = s.currentPage + 1
        ∧ (playerViewer.next s).2 = some (s.currentPage + 1)) ∧
    (1 < s.currentPage →
      (playerViewer.prev s).1.currentPage = s.currentPage - 1
        ∧ (playerViewer.prev s).2 = some (s.currentPage - 1)) := by
  have hnd : s.pdfDoc.isNone = false := by rw [hdoc]; rfl
  refine ⟨?_, ?_, ?_, ?_, ?_, ?_⟩
  · by_cases hlt : s.currentPage < s.totalPages
    · simp [playerViewer.next, hnd, hlt, renderPage_fst_currentPage]
      omega
    · simp [playerViewer.next, hnd, hlt]
      omega
  · by_cases hgt : 1 < s.currentPage
    · simp [playerViewer.prev, hnd, hgt, renderPage_fst_currentPage]
      omega
    · simp [playerViewer.prev, hnd, hgt]
      omega
  · intro h1
    have hng : ¬ 1 < s.currentPage := by omega
    simp [playerViewer.prev, hnd, hng]
  · intro hmax
    have hng : ¬ s.currentPage < s.totalPages := by omega
    simp [playerViewer.next, hnd, hng]
  · intro hlt
    exact ⟨by simp [playerViewer.next, hnd, hlt, renderPage_fst_currentPage],
           by simp [playerViewer.next, hnd, hlt]⟩
  · intro hgt
    exact ⟨by simp [playerViewer.prev, hnd, hgt, renderPage_fst_currentPage],
           by simp [playerViewer.prev, hnd, hgt]⟩

/-- Witness for claim C5 at `sampleState` (page 2 of 3). -/
theorem claim_c5_nav_clamps_witness :
    (1 ≤ (playerViewer.next sampleState).1.currentPage
      ∧ (playerViewer.next sampleState).1.currentPage ≤ sampleState.totalPages) ∧
    (1 ≤ (playerViewer.prev sampleState).1.currentPage
      ∧ (playerViewer.prev sampleState).1.currentPage ≤ sampleState.totalPages) ∧
    (sampleState.currentPage = 1 → playerViewer.prev sampleState = (sampleState, none)) ∧
    (sampleState.currentPage = sampleState.totalPages →
      playerViewer.next sampleState = (sampleState, none)) ∧
    (sampleState.currentPage < sampleState.totalPages →
      (playerViewer.next sampleState).1.currentPage = sampleState.currentPage + 1
        ∧ (playerViewer.next sampleState).2 = some (sampleState.currentPage + 1)) ∧
    (1 < sampleState.currentPage →
      (playerViewer.prev sampleState).1.currentPage = sampleState.currentPage - 1
        ∧ (playerViewer.prev sampleState).2 = some (sampleState.currentPage - 1)) :=
  claim_c5_nav_clamps sampleState 3 rfl (by decide) (by decide)

set_option maxRecDepth 40000 in
/-- Claim C1 (counterexample): with both boolean fields omitted from the
RuntimeConfig, the serialized configuration does not contain
`sidebarDefaultOpen: true` nor `slideSequenceLocked: true` — the schema
default claimed by the specification is not what `generateConfigJS`
produces. -/
theorem claim_c1_defaults_cex :
    strContains (generateConfigJS (RuntimeConfig.mk none none none) "content.pdf")
      "sidebarDefaultOpen: true" = false ∧
    strContains (generateConfigJS (RuntimeConfig.mk none none none) "content.pdf")
      "slideSequenceLocked: true" = false := by
  constructor <;> decide

set_option maxRecDepth 40000 in
/-- Claim C1 (amended): when the caller omits `sidebarDefaultOpen`
(likewise `slideSequenceLocked`), `generateConfigJS` coerces the absent
value with `Boolean(undefined)` and serializes the field as `false`, so
for every title and filename the configuration contains
`sidebarDefaultOpen: false` (respectively `slideSequenceLocked: false`). -/
theorem claim_c1_defaults_amended (cfg : RuntimeConfig) (f : String)
    (h1 : cfg.sidebarDefaultOpen = none) (h2 : cfg.slideSequenceLocked = none) :
    strContains (generateConfigJS cfg f) "sidebarDefaultOpen: false" = true ∧
    strContains (generateConfigJS cfg f) "slideSequenceLocked: false" = true := by
  unfold generateConfigJS
  rw [h1, h2]
  constructor
  · simp only [str_append_assoc]
    apply strContains_append_left
    apply strContains_append_left
    apply strContains_append_left
    apply strContains_append_left
    decide
  · simp only [str_append_assoc]
    apply strContains_append_left
    apply strContains_append_left
    apply strContains_append_left
    apply strContains_append_left
    decide

/-- Witness for the amended claim C1 at a concrete config with both
boolean fields omitted. -/
theorem claim_c1_defaults_amended_witness :
    strContains (generateConfigJS (RuntimeConfig.mk (some "Intro") none none) "content.pdf")
      "sidebarDefaultOpen: false" = true ∧
    strContains (generateConfigJS (RuntimeConfig.mk (some "Intro") none none) "content.pdf")
      "slideSequenceLocked: false" = true :=
  claim_c1_defaults_amended (RuntimeConfig.mk (some "Intro") none none) "content.pdf" rfl rfl

/-- Claim C7: a non-success HTTP status (or a transport error) from the
upstream PDF fetch makes the /package handler answer with the catch-block
error response, and no archive is streamed. -/
theorem claim_c7_fetch_failure_aborts (pkgId url : String)
    (config : Option RuntimeConfig) (env : AssetEnv) (fr : FetchOutcome)
    (hurl : url ≠ "") (hfr : fr ≠ FetchOutcome.success) :
    (packagePost pkgId (some url) config env fr).isServerError = true ∧
    (packagePost pkgId (some url) config env fr).isArchiveStreamed = false := by
  cases fr with
  | success => exact absurd rfl hfr
  | httpError status =>
      constructor <;>
        simp [packagePost, hurl, PackageResult.isServerError, PackageResult.isArchiveStreamed]
  | transportError msg =>
      constructor <;>
        simp [packagePost, hurl, PackageResult.isServerError, PackageResult.isArchiveStreamed]

/-- Witness for claim C7: an HTTP 404 on the PDF fetch yields an error
response and no archive. -/
theorem claim_c7_fetch_failure_aborts_witness :
    (packagePost "pkg_1" (some "http://files.example/a.pdf") none
        (AssetEnv.mk false false false false) (FetchOutcome.httpError 404)).isServerError
      = true ∧
    (packagePost "pkg_1" (some "http://files.example/a.pdf") none
        (AssetEnv.mk false false false false) (FetchOutcome.httpError 404)).isArchiveStreamed
      = false :=
  claim_c7_fetch_failure_aborts "pkg_1" "http://files.example/a.pdf" none
    (AssetEnv.mk false false false false) (FetchOutcome.httpError 404)
    (by decide) (by decide)

set_option maxRecDepth 40000 in
/-- Claim C8, evaluated at the failing input: `generateManifest` performs
no markup escaping, so a title containing `&` and `<` is interpolated
verbatim into the `<title>` element (and no `&amp;` entity appears
anywhere), producing a descriptor that is not well-formed XML instead of
containing the title as escaped text. -/
theorem claim_c8_title_not_escaped :
    strContains
      (generateManifest "pkg_1" "Ben & Jerry <Training>" "index_lms.html" ["player.html"])
      "<title>Ben & Jerry <Training></title>" = true ∧
    strContains
      (generateManifest "pkg_1" "Ben & Jerry <Training>" "index_lms.html" ["player.html"])
      "&amp;" = false := by
  constructor <;> decide
